import Mathlib

/-!
Shallow embedding of the `esp_proyecto` booking backend
(`src/flights/router.py`, `src/flights/schemas.py`, `src/bookings/router.py`,
`src/auth.py`) together with proofs about its flight lifecycle, search,
reservation and authorization logic.

Python dictionaries (`flights_db`, `ReservationRepository.reservations`,
`fake_users_db`) are modelled as association lists with Python-dict
get/set semantics: assignment to an existing key replaces the value in
place, assignment to a fresh key appends.  `HTTPException` is modelled as
a status-code/detail pair, and each endpoint is a pure function from the
store (and request) to `Except HTTPException` of the new store and/or the
response value.
-/

namespace Esp

/-- Model of FastAPI's `HTTPException(status_code, detail)`. -/
structure HTTPException where
  status_code : Nat
  detail : String
deriving DecidableEq

/-- Python-dict lookup `d.get(k)` on an association list. -/
def assocGet {κ α : Type} [DecidableEq κ] (l : List (κ × α)) (k : κ) : Option α :=
  (l.find? (fun p => p.fst == k)).map Prod.snd

/-- Python-dict assignment `d[k] = v`: replaces the value at an existing
key in place, otherwise appends the new binding. -/
def assocSet {κ α : Type} [DecidableEq κ] (l : List (κ × α)) (k : κ) (v : α) : List (κ × α) :=
  if l.any (fun p => p.fst == k) then
    l.map (fun p => if p.fst == k then (p.fst, v) else p)
  else
    l ++ [(k, v)]

/-! ## Flight data model (src/flights/router.py, src/flights/schemas.py) -/

/-- The `Flight` class.  `flight_datetime` is an opaque timestamp,
modelled as a natural number; only equality of timestamps matters to the
code under study. -/
structure Flight where
  flight_id : String
  destination : String
  departure : String
  flight_type : String
  aircraft : String
  seats : Int
  flight_datetime : Nat
  state : String
deriving DecidableEq

/-- The `FlightCreate` request schema (inherits all fields of
`FlightBase`; its optional `state` field is ignored by the factory). -/
structure FlightCreate where
  flight_id : String
  destination : String
  departure : String
  flight_type : String
  aircraft : String
  seats : Int
  flight_datetime : Nat
  state : Option String
deriving DecidableEq

/-- The `FlightUpdate` request schema: `flight_id` is mandatory, every
other field is optional and defaults to `None`. -/
structure FlightUpdate where
  flight_id : String
  destination : Option String
  departure : Option String
  flight_type : Option String
  aircraft : Option String
  seats : Option Int
  flight_datetime : Option Nat
deriving DecidableEq

/-- Python truthiness of an `Optional[str]` value: `None` and the empty
string `""` are falsy, every other string is truthy.  `Flight.update`
and `search_flights` test string fields with bare `if x:` checks. -/
def optStrTruthy : Option String → Bool
  | none => false
  | some s => s ≠ ""

/-- The method `Flight.update`: each field is guarded by its own
independent check.  The string-typed fields use bare truthiness
(`if data.destination:` etc.), while `seats` and `flight_datetime` use
`is not None`.  The source assigns the fields sequentially on `self`;
since each assignment touches a distinct field this is the simultaneous
record update below. -/
def Flight.update (f : Flight) (data : FlightUpdate) : Flight :=
  { f with
    destination := if optStrTruthy data.destination then data.destination.getD f.destination else f.destination
    departure := if optStrTruthy data.departure then data.departure.getD f.departure else f.departure
    flight_type := if optStrTruthy data.flight_type then data.flight_type.getD f.flight_type else f.flight_type
    aircraft := if optStrTruthy data.aircraft then data.aircraft.getD f.aircraft else f.aircraft
    seats := match data.seats with
      | some s => s
      | none => f.seats
    flight_datetime := match data.flight_datetime with
      | some d => d
      | none => f.flight_datetime }

/-- The method `Flight.confirm`: sets `state` unconditionally and
returns a message.  Modelled as (new flight, returned string). -/
def Flight.confirm (f : Flight) : Flight × String :=
  ({ f with state := "confirmed" }, "Vuelo confirmado.")

/-- The method `Flight.cancel`: refuses (with a non-error message and no
mutation) when the state is `"confirmed"`, otherwise sets the state to
`"cancelled"`. -/
def Flight.cancel (f : Flight) : Flight × String :=
  if f.state = "confirmed" then
    (f, "Cannot cancel a confirmed flight.")
  else
    ({ f with state := "cancelled" }, "Vuelo cancelado.")

/-- `FlightFactory.create_flight`: builds a `Flight` from the request;
the constructor initializes `state` to `"reserved"` and the request's
optional `state` field is never read. -/
def FlightFactory.create_flight (flight_data : FlightCreate) : Flight :=
  { flight_id := flight_data.flight_id
    destination := flight_data.destination
    departure := flight_data.departure
    flight_type := flight_data.flight_type
    aircraft := flight_data.aircraft
    seats := flight_data.seats
    flight_datetime := flight_data.flight_datetime
    state := "reserved" }

/-- The global `flights_db` dictionary, keyed by `flight_id`. -/
abbrev FlightsDb := List (String × Flight)

/-- Lookup `flights_db.get(flight_id)`. -/
def dbGet (db : FlightsDb) (flight_id : String) : Option Flight :=
  assocGet db flight_id

/-- Assignment `flights_db[flight_id] = flight`. -/
def dbSet (db : FlightsDb) (flight_id : String) (f : Flight) : FlightsDb :=
  assocSet db flight_id f

/-- Endpoint `POST /flights/create`. -/
def create_flight (db : FlightsDb) (request : FlightCreate) : Except HTTPException (FlightsDb × String) :=
  if (dbGet db request.flight_id).isSome then
    .error ⟨400, "Vuelo con Id " ++ request.flight_id ++ " ya existe."⟩
  else
    .ok (dbSet db request.flight_id (FlightFactory.create_flight request),
         "Vuelo " ++ request.flight_id ++ " creado exitosamente.")

/-- Query parameters of `GET /flights/search`; every filter is optional. -/
structure SearchQuery where
  flight_id : Option String
  destination : Option String
  departure : Option String
  flight_type : Option String
  aircraft : Option String
  seats : Option Int
  flight_datetime : Option Nat
deriving DecidableEq

/-- One string clause of the search loop,
`if filt and flight.field != filt: continue`: the flight survives the
clause unless the filter is truthy (present and non-empty) and differs
from the field. -/
def strClausePass (filt : Option String) (v : String) : Bool :=
  !(optStrTruthy filt && v != filt.getD "")

/-- One non-string clause of the search loop.  `seats` is tested with
`if seats is not None and flight.seats != seats`; `flight_datetime` is
tested with a bare `if flight_datetime and ...`, but Python `datetime`
objects are always truthy, so both reduce to an is-not-None guard. -/
def optClausePass {α : Type} [DecidableEq α] (filt : Option α) (v : α) : Bool :=
  match filt with
  | none => true
  | some s => v == s

/-- The body of the `search_flights` loop: a flight is appended to the
results exactly when no clause fires `continue`. -/
def flightPassesFilters (q : SearchQuery) (f : Flight) : Bool :=
  strClausePass q.flight_id f.flight_id &&
  strClausePass q.destination f.destination &&
  strClausePass q.departure f.departure &&
  strClausePass q.flight_type f.flight_type &&
  strClausePass q.aircraft f.aircraft &&
  optClausePass q.seats f.seats &&
  optClausePass q.flight_datetime f.flight_datetime

/-- Endpoint `GET /flights/search`: filters the stored flights in
insertion order and raises 404 when no flight survives. -/
def search_flights (db : FlightsDb) (q : SearchQuery) : Except HTTPException (List Flight) :=
  let results := (db.map Prod.snd).filter (flightPassesFilters q)
  if results.isEmpty then
    .error ⟨404, "Vuelo no encontrado."⟩
  else
    .ok results

/-- Endpoint `PUT /flights/update`. -/
def update_flight (db : FlightsDb) (request : FlightUpdate) : Except HTTPException (FlightsDb × String) :=
  match dbGet db request.flight_id with
  | none => .error ⟨404, "Vuelo no encontrado."⟩
  | some flight =>
      .ok (dbSet db request.flight_id (flight.update request),
           "Vuelo " ++ request.flight_id ++ " actualizado exitosamente.")

/-- Endpoint `POST /flights/confirm/\x7bflight_id\x7d`. -/
def confirm_flight (db : FlightsDb) (flight_id : String) : Except HTTPException (FlightsDb × String) :=
  match dbGet db flight_id with
  | none => .error ⟨404, "Vuelo no encontrado."⟩
  | some flight =>
      let r := flight.confirm
      .ok (dbSet db flight_id r.1, r.2)

/-- Endpoint `POST /flights/cancel/\x7bflight_id\x7d`. -/
def cancel_flight (db : FlightsDb) (flight_id : String) : Except HTTPException (FlightsDb × String) :=
  match dbGet db flight_id with
  | none => .error ⟨404, "Vuelo no encontrado."⟩
  | some flight =>
      let r := flight.cancel
      .ok (dbSet db flight_id r.1, r.2)

/-! ## Authentication and authorization (src/auth.py) -/

/-- A record of `fake_users_db`: username, bcrypt-hashed password
(opaque here) and the admin flag. -/
structure User where
  username : String
  hashed_password : String
  is_admin : Bool
deriving DecidableEq

/-- The decoded claims of a JWT: the `sub` claim (may be absent) and the
`exp` claim (always set by `create_access_token`). -/
structure TokenPayload where
  sub : Option String
  exp : Nat
deriving DecidableEq

/-- A presented bearer token: either not a well-formed signed JWT at
all, or a JWT signed with some key carrying a payload. -/
inductive Token where
  | malformed
  | signed (key : String) (payload : TokenPayload)
deriving DecidableEq

/-- The process-wide signing key. -/
def SECRET_KEY : String := "YOUR_SECRET_KEY"

/-- Model of `jose.jwt.decode(token, key, algorithms)`: raises
`JWTError` (here `Except.error ()`) on a malformed token, on a
signature made with a different key, and on an expired `exp` claim
(jose rejects exactly when `exp < now` with zero leeway); otherwise
returns the payload. -/
def jwtDecode (token : Token) (key : String) (now : Nat) : Except Unit TokenPayload :=
  match token with
  | .malformed => .error ()
  | .signed k payload =>
      if k != key then .error ()
      else if payload.exp < now then .error ()
      else .ok payload

/-- The user table, keyed by username. -/
abbrev UsersDb := List (String × User)

/-- Lookup in the user table. -/
def usersGet (db : UsersDb) (username : String) : Option User :=
  assocGet db username

/-- The concrete `fake_users_db`: a single admin principal.  The bcrypt
hash is salted and opaque; it is irrelevant to token validation. -/
def fake_users_db : UsersDb :=
  [("admin@example.com", ⟨"admin@example.com", "bcrypt-hash-of-admin", true⟩)]

/-- Dependency `get_current_user`: decodes the token, reads the `sub`
claim, and resolves it in the user table; every failure (malformed
token, wrong key, expired, missing subject, unknown subject) raises the
same 401 response. -/
def get_current_user (db : UsersDb) (token : Token) (now : Nat) : Except HTTPException User :=
  match jwtDecode token SECRET_KEY now with
  | .error _ => .error ⟨401, "Invalid authentication credentials"⟩
  | .ok payload =>
      match payload.sub with
      | none => .error ⟨401, "Invalid authentication credentials"⟩
      | some username =>
          match usersGet db username with
          | none => .error ⟨401, "Invalid authentication credentials"⟩
          | some user => .ok user

/-- Dependency `admin_required`: applies `get_current_user`, then
raises 403 when the resolved user's `is_admin` flag is falsy. -/
def admin_required (db : UsersDb) (token : Token) (now : Nat) : Except HTTPException User :=
  match get_current_user db token now with
  | .error e => .error e
  | .ok user =>
      if !user.is_admin then
        .error ⟨403, "The user doesn\x27t have enough privileges"⟩
      else
        .ok user

/-! ## Reservations (src/bookings/router.py) -/

/-- The `Reservation` pydantic model.  `status` is a plain string whose
schema default is `"reserved"`; pydantic performs no further validation
on it. -/
structure Reservation where
  id : Int
  passenger_email : String
  flight_id : String
  seat_number : Option String
  status : String
deriving DecidableEq

/-- A `Reservation` parsed from a payload that omits `status`: the
pydantic field default `status = "reserved"` applies. -/
def Reservation.mkDefault (id : Int) (passenger_email : String) (flight_id : String)
    (seat_number : Option String) : Reservation :=
  ⟨id, passenger_email, flight_id, seat_number, "reserved"⟩

/-- The store of `ReservationRepository`, keyed by `Reservation.id`. -/
abbrev ReservationsDb := List (Int × Reservation)

/-- `ReservationRepository.get_reservation`. -/
def resGet (db : ReservationsDb) (reservation_id : Int) : Option Reservation :=
  assocGet db reservation_id

/-- `ReservationRepository.add_reservation`: 400 on a duplicate id,
otherwise stores the reservation (exactly as supplied) under its id. -/
def add_reservation (db : ReservationsDb) (r : Reservation) : Except HTTPException ReservationsDb :=
  if (resGet db r.id).isSome then
    .error ⟨400, "Reservación ya existente."⟩
  else
    .ok (assocSet db r.id r)

/-- `ReservationRepository.update_reservation`: 404 when the id is
absent, otherwise replaces the stored record wholesale. -/
def update_reservation (db : ReservationsDb) (r : Reservation) : Except HTTPException ReservationsDb :=
  if (resGet db r.id).isSome then
    .ok (assocSet db r.id r)
  else
    .error ⟨404, "Reservación no encontrada."⟩

/-- `ReservationRepository.list_all`. -/
def list_all (db : ReservationsDb) : List Reservation :=
  db.map Prod.snd

/-- `BookingManager.cancel_reservation`: fetches the reservation, sets
its status to `"cancelled"` and persists it via `update_reservation`;
404 when absent. -/
def cancel_reservation (db : ReservationsDb) (reservation_id : Int) : Except HTTPException ReservationsDb :=
  match resGet db reservation_id with
  | some r => update_reservation db { r with status := "cancelled" }
  | none => .error ⟨404, "Reservación no encontrada."⟩

/-- Well-formedness of the reservation store, maintained by the
repository operations: keys are distinct and each record is stored
under its own `id`. -/
def resDbWF (db : ReservationsDb) : Prop :=
  (db.map Prod.fst).Nodup ∧ ∀ p ∈ db, p.snd.id = p.fst

/-! ## Spec-side definitions used for refinement comparisons -/

/-- Written from the claim wording for `search`: an exact-match
conjunction over every supplied (non-null) filter, with omitted fields
not tested. -/
def specMatches (q : SearchQuery) (f : Flight) : Bool :=
  (match q.flight_id with
    | none => true
    | some s => f.flight_id == s) &&
  (match q.destination with
    | none => true
    | some s => f.destination == s) &&
  (match q.departure with
    | none => true
    | some s => f.departure == s) &&
  (match q.flight_type with
    | none => true
    | some s => f.flight_type == s) &&
  (match q.aircraft with
    | none => true
    | some s => f.aircraft == s) &&
  (match q.seats with
    | none => true
    | some s => f.seats == s) &&
  (match q.flight_datetime with
    | none => true
    | some s => f.flight_datetime == s)

/-- One string clause of the amended wording for `search`: an omitted
or empty-string filter is not tested, any other filter tests exact
equality. -/
def specStrClause (filt : Option String) (v : String) : Bool :=
  match filt with
  | none => true
  | some s => s == "" || v == s

/-- One non-string clause of the amended wording for `search`: an
omitted filter is not tested, a supplied one tests exact equality. -/
def specOptClause {α : Type} [DecidableEq α] (filt : Option α) (v : α) : Bool :=
  match filt with
  | none => true
  | some s => v == s

/-- Written from the amended wording for `search`: like `specMatches`,
except that a supplied string filter equal to the empty string is
ignored (Python truthiness treats it as absent). -/
def specMatchesAmended (q : SearchQuery) (f : Flight) : Bool :=
  specStrClause q.flight_id f.flight_id &&
  specStrClause q.destination f.destination &&
  specStrClause q.departure f.departure &&
  specStrClause q.flight_type f.flight_type &&
  specStrClause q.aircraft f.aircraft &&
  specOptClause q.seats f.seats &&
  specOptClause q.flight_datetime f.flight_datetime

/-! ## Concrete sample data used by witnesses and counterexamples -/

/-- A sample stored flight in state `"reserved"`. -/
def flightLima : Flight :=
  ⟨"F1", "Lima", "Quito", "comercial", "A320", 100, 0, "reserved"⟩

/-- The same flight in state `"confirmed"`. -/
def flightLimaConfirmed : Flight :=
  { flightLima with state := "confirmed" }

/-- A one-flight store holding `flightLima`. -/
def dbLima : FlightsDb := [("F1", flightLima)]

/-- A one-flight store holding `flightLimaConfirmed`. -/
def dbLimaConfirmed : FlightsDb := [("F1", flightLimaConfirmed)]

/-- An update payload whose `destination` is present but empty. -/
def reqEmptyDest : FlightUpdate :=
  ⟨"F1", some "", none, none, none, none, none⟩

/-- A search query whose only supplied filter is `destination = ""`. -/
def qEmptyDest : SearchQuery :=
  ⟨none, some "", none, none, none, none, none⟩

/-- A reservation whose creation payload supplies an explicit status
outside the documented two-value enum. -/
def resConfirmed : Reservation :=
  ⟨1, "a@b.com", "F1", none, "confirmed"⟩

/-- A creation request reusing the already-stored id `"F1"`. -/
def reqCreateF1 : FlightCreate :=
  ⟨"F1", "Lima", "Quito", "comercial", "A320", 100, 0, none⟩

/-- A one-reservation store holding a default-status reservation. -/
def dbRes1 : ReservationsDb :=
  [((1 : Int), Reservation.mkDefault 1 "a@b.com" "F1" none)]

/-- A well-signed, unexpired token for the registered admin. -/
def tokenAdmin : Token :=
  Token.signed SECRET_KEY ⟨some "admin@example.com", 100⟩

/-! ## Generic lemmas about the dictionary model -/

theorem find?_assocReplace {κ α : Type} [DecidableEq κ] (l : List (κ × α)) (k : κ) (v : α) :
    (l.map (fun p => if p.fst == k then (p.fst, v) else p)).find? (fun p => p.fst == k) =
      (l.find? (fun p => p.fst == k)).map (fun p => (p.fst, v)) := by
  induction l with
  | nil => rfl
  | cons p t ih =>
      rw [List.map_cons]
      by_cases h : p.fst = k
      · have hb : ((p.fst == k) = true) := by simp [h]
        rw [if_pos hb]
        simp only [List.find?_cons, hb]
        rfl
      · have hb : (p.fst == k) = false := by simp [h]
        rw [if_neg (by simp [hb])]
        simp only [List.find?_cons, hb]
        exact ih

theorem find?_assocReplace_ne {κ α : Type} [DecidableEq κ] (l : List (κ × α)) (k k' : κ)
    (v : α) (hne : k' ≠ k) :
    (l.map (fun p => if p.fst == k then (p.fst, v) else p)).find? (fun p => p.fst == k') =
      l.find? (fun p => p.fst == k') := by
  induction l with
  | nil => rfl
  | cons p t ih =>
      rw [List.map_cons]
      by_cases h : p.fst = k
      · have hb : ((p.fst == k) = true) := by simp [h]
        have hb' : (p.fst == k') = false := by
          simp [h]
          exact fun hh => hne hh.symm
        rw [if_pos hb]
        simp only [List.find?_cons, hb']
        exact ih
      · have hb : (p.fst == k) = false := by simp [h]
        rw [if_neg (by simp [hb])]
        by_cases h' : p.fst = k'
        · have hb' : ((p.fst == k') = true) := by simp [h']
          simp only [List.find?_cons, hb']
        · have hb' : (p.fst == k') = false := by simp [h']
          simp only [List.find?_cons, hb']
          exact ih

theorem any_of_assocGet_some {κ α : Type} [DecidableEq κ] {l : List (κ × α)} {k : κ} {v : α}
    (hget : assocGet l k = some v) : l.any (fun p => p.fst == k) = true := by
  unfold assocGet at hget
  cases hf : l.find? (fun p => p.fst == k) with
  | none => rw [hf] at hget; simp at hget
  | some q =>
      have hsat := List.find?_some (p := fun r : κ × α => r.fst == k) hf
      exact List.any_eq_true.mpr ⟨q, List.mem_of_find?_eq_some hf, hsat⟩

theorem assocGet_set_self {κ α : Type} [DecidableEq κ] (l : List (κ × α)) (k : κ) (v : α) :
    assocGet (assocSet l k v) k = some v := by
  unfold assocGet assocSet
  by_cases h : l.any (fun p => p.fst == k) = true
  · rw [if_pos h, find?_assocReplace]
    cases hf : l.find? (fun p => p.fst == k) with
    | none =>
        rw [List.find?_eq_none] at hf
        obtain ⟨q, hmem, hq⟩ := List.any_eq_true.mp h
        exact absurd hq (hf q hmem)
    | some q => rfl
  · rw [if_neg h]
    have hnone : l.find? (fun p => p.fst == k) = none := by
      rw [List.find?_eq_none]
      intro x hx hsat
      exact h (List.any_eq_true.mpr ⟨x, hx, hsat⟩)
    rw [List.find?_append, hnone, Option.none_or]
    simp only [List.find?_cons, beq_self_eq_true]
    rfl

theorem assocGet_set_ne {κ α : Type} [DecidableEq κ] (l : List (κ × α)) (k k' : κ) (v : α)
    (hne : k' ≠ k) : assocGet (assocSet l k v) k' = assocGet l k' := by
  unfold assocGet assocSet
  by_cases h : l.any (fun p => p.fst == k) = true
  · rw [if_pos h, find?_assocReplace_ne l k k' v hne]
  · rw [if_neg h]
    have hk' : ((k : κ) == k') = false := by
      simp
      exact fun hh => hne hh.symm
    rw [List.find?_append]
    simp only [List.find?_cons, hk', List.find?_nil, Option.or_none]

theorem assocReplace_get_self {κ α : Type} [DecidableEq κ] (l : List (κ × α)) (k : κ) (v : α)
    (hnd : (l.map Prod.fst).Nodup) (hget : assocGet l k = some v) :
    l.map (fun p => if p.fst == k then (p.fst, v) else p) = l := by
  induction l with
  | nil => rfl
  | cons p t ih =>
      rw [List.map_cons, List.nodup_cons] at hnd
      rw [List.map_cons]
      unfold assocGet at hget
      by_cases h : p.fst = k
      · have hb : ((p.fst == k) = true) := by simp [h]
        have hv : v = p.snd := by
          simp only [List.find?_cons, hb] at hget
          simpa using hget.symm
        have hmap : t.map (fun q => if q.fst == k then (q.fst, v) else q) = t := by
          have hcong : ∀ q ∈ t, (if q.fst == k then (q.fst, v) else q) = id q := by
            intro q hq
            have hq' : ¬ (q.fst == k) = true := by
              simp
              intro hqk
              exact hnd.1 (by rw [h, ← hqk]; exact List.mem_map_of_mem Prod.fst hq)
            rw [if_neg hq']
            rfl
          rw [List.map_congr_left hcong, List.map_id]
        rw [if_pos hb, hmap, hv, Prod.mk.eta]
      · have hb : (p.fst == k) = false := by simp [h]
        have hget' : assocGet t k = some v := by
          unfold assocGet
          simp only [List.find?_cons, hb] at hget
          exact hget
        rw [if_neg (by simp [hb]), ih hnd.2 hget']

theorem assocSet_get_self {κ α : Type} [DecidableEq κ] (l : List (κ × α)) (k : κ) (v : α)
    (hnd : (l.map Prod.fst).Nodup) (hget : assocGet l k = some v) :
    assocSet l k v = l := by
  unfold assocSet
  rw [if_pos (any_of_assocGet_some hget)]
  exact assocReplace_get_self l k v hnd hget

theorem assocGet_mem_values {κ α : Type} [DecidableEq κ] {l : List (κ × α)} {k : κ} {v : α}
    (hget : assocGet l k = some v) : v ∈ l.map Prod.snd := by
  unfold assocGet at hget
  cases hf : l.find? (fun p => p.fst == k) with
  | none => rw [hf] at hget; simp at hget
  | some q =>
      rw [hf] at hget
      have hq : q.snd = v := by simpa using hget
      exact hq ▸ List.mem_map_of_mem Prod.snd (List.mem_of_find?_eq_some hf)

theorem assocGet_snd_key {κ α : Type} [DecidableEq κ] {l : List (κ × α)} {k : κ} {v : α}
    (f : α → κ) (hwf : ∀ p ∈ l, f p.snd = p.fst) (hget : assocGet l k = some v) :
    f v = k := by
  unfold assocGet at hget
  cases hf : l.find? (fun p => p.fst == k) with
  | none => rw [hf] at hget; simp at hget
  | some q =>
      rw [hf] at hget
      have hq : q.snd = v := by simpa using hget
      have hsat := List.find?_some (p := fun r : κ × α => r.fst == k) hf
      have hk : q.fst = k := by simpa using hsat
      rw [← hq, hwf q (List.mem_of_find?_eq_some hf), hk]

/-! ## Claim theorems -/

/-- C10: `Flight.update` never changes `flight_id` or `state`; a partial
update cannot rename a flight or alter its lifecycle state (the
payload's `flight_id` is only used by `update_flight` to locate the
record). -/
theorem flight_update_preserves_id_and_state (f : Flight) (data : FlightUpdate) :
    (f.update data).flight_id = f.flight_id ∧ (f.update data).state = f.state :=
  ⟨rfl, rfl⟩

/-- C7: `confirm_flight` fails with 404 when the id is absent, and
otherwise sets the state to `"confirmed"` unconditionally, whatever the
current state (so it is idempotent from `"reserved"` or `"confirmed"`
and moves a `"cancelled"` flight back to `"confirmed"`), leaving every
other flight untouched. -/
theorem confirm_flight_spec (db : FlightsDb) (fid : String) :
    (dbGet db fid = none → confirm_flight db fid = .error ⟨404, "Vuelo no encontrado."⟩) ∧
    (∀ f, dbGet db fid = some f →
      confirm_flight db fid =
        .ok (dbSet db fid { f with state := "confirmed" }, "Vuelo confirmado.") ∧
      dbGet (dbSet db fid { f with state := "confirmed" }) fid =
        some { f with state := "confirmed" } ∧
      ∀ id, id ≠ fid → dbGet (dbSet db fid { f with state := "confirmed" }) id = dbGet db id) := by
  constructor
  · intro hnone
    unfold confirm_flight
    rw [hnone]
  · intro f hf
    unfold confirm_flight
    rw [hf]
    refine ⟨rfl, ?_, ?_⟩
    · exact assocGet_set_self db fid _
    · intro id hid
      exact assocGet_set_ne db fid id _ hid

/-- Witness for C7 at a concrete store: confirming the stored reserved
flight succeeds and stores it as confirmed. -/
theorem confirm_flight_spec_witness :
    confirm_flight dbLima "F1" =
      .ok (dbSet dbLima "F1" { flightLima with state := "confirmed" }, "Vuelo confirmado.") :=
  ((confirm_flight_spec dbLima "F1").2 flightLima rfl).1

/-- C1: `cancel_flight` fails with 404 when the id is absent; on a
`"confirmed"` flight it returns the non-error refusal message and
leaves the store untouched; on any other state it sets the state to
`"cancelled"`. -/
theorem cancel_flight_spec (db : FlightsDb) (fid : String)
    (hnd : (db.map Prod.fst).Nodup) :
    (dbGet db fid = none → cancel_flight db fid = .error ⟨404, "Vuelo no encontrado."⟩) ∧
    (∀ f, dbGet db fid = some f → f.state = "confirmed" →
      cancel_flight db fid = .ok (db, "Cannot cancel a confirmed flight.")) ∧
    (∀ f, dbGet db fid = some f → f.state ≠ "confirmed" →
      cancel_flight db fid =
        .ok (dbSet db fid { f with state := "cancelled" }, "Vuelo cancelado.") ∧
      dbGet (dbSet db fid { f with state := "cancelled" }) fid =
        some { f with state := "cancelled" }) := by
  refine ⟨?_, ?_, ?_⟩
  · intro hnone
    unfold cancel_flight
    rw [hnone]
  · intro f hf hconf
    have hset : dbSet db fid f = db := assocSet_get_self db fid f hnd hf
    unfold cancel_flight
    rw [hf]
    simp [Flight.cancel, hconf, hset]
  · intro f hf hnconf
    constructor
    · unfold cancel_flight
      rw [hf]
      simp [Flight.cancel, hnconf]
    · exact assocGet_set_self db fid _

/-- Witness for C1 at a concrete store: cancelling a confirmed flight
returns the refusal message and the unchanged store. -/
theorem cancel_flight_spec_witness :
    cancel_flight dbLimaConfirmed "F1" = .ok (dbLimaConfirmed, "Cannot cancel a confirmed flight.") :=
  (cancel_flight_spec dbLimaConfirmed "F1" (by decide)).2.1 flightLimaConfirmed rfl rfl

/-- C6: `create_flight` fails with 400 (Conflict) when the id is
already stored, leaving the store untouched, and otherwise inserts the
factory-built flight, whose state is `"reserved"`, without touching any
other flight. -/
theorem create_flight_spec (db : FlightsDb) (request : FlightCreate) :
    (∀ f, dbGet db request.flight_id = some f →
      create_flight db request =
        .error ⟨400, "Vuelo con Id " ++ request.flight_id ++ " ya existe."⟩) ∧
    (dbGet db request.flight_id = none →
      create_flight db request =
        .ok (dbSet db request.flight_id (FlightFactory.create_flight request),
             "Vuelo " ++ request.flight_id ++ " creado exitosamente.") ∧
      (FlightFactory.create_flight request).state = "reserved" ∧
      dbGet (dbSet db request.flight_id (FlightFactory.create_flight request)) request.flight_id =
        some (FlightFactory.create_flight request) ∧
      ∀ id, id ≠ request.flight_id →
        dbGet (dbSet db request.flight_id (FlightFactory.create_flight request)) id =
          dbGet db id) := by
  constructor
  · intro f hf
    unfold create_flight
    rw [hf]
    rfl
  · intro hnone
    refine ⟨?_, rfl, ?_, ?_⟩
    · unfold create_flight
      rw [hnone]
      rfl
    · exact assocGet_set_self db request.flight_id _
    · intro id hid
      exact assocGet_set_ne db request.flight_id id _ hid

/-- Witness for C6 at a concrete store: re-creating the stored id fails
with the conflict error. -/
theorem create_flight_spec_witness :
    create_flight dbLima reqCreateF1 =
      .error ⟨400, "Vuelo con Id " ++ reqCreateF1.flight_id ++ " ya existe."⟩ :=
  (create_flight_spec dbLima reqCreateF1).1 flightLima rfl

/-- C2 counterexample: an update payload carrying the non-null value
`destination = ""` is NOT applied — the stored destination stays
`"Lima"` and the endpoint reports success — because `Flight.update`
guards string fields with Python truthiness, under which the empty
string counts as absent. -/
theorem update_flight_nonnull_counterexample :
    reqEmptyDest.destination = some "" ∧
    (Flight.update flightLima reqEmptyDest).destination = "Lima" ∧
    update_flight dbLima reqEmptyDest = .ok (dbLima, "Vuelo F1 actualizado exitosamente.") :=
  ⟨rfl, rfl, rfl⟩

/-- C2 amended: `update_flight` fails with 404 when the id is absent;
otherwise it applies the payload per-field and independently, where the
string-typed fields (`destination`, `departure`, `flight_type`,
`aircraft`) are overwritten exactly when non-null AND non-empty (Python
truthiness) and `seats` / `flight_datetime` are overwritten exactly
when non-null; every other stored flight is untouched. -/
theorem update_flight_amended_spec (db : FlightsDb) (request : FlightUpdate) :
    (dbGet db request.flight_id = none →
      update_flight db request = .error ⟨404, "Vuelo no encontrado."⟩) ∧
    (∀ f, dbGet db request.flight_id = some f →
      update_flight db request =
        .ok (dbSet db request.flight_id (f.update request),
             "Vuelo " ++ request.flight_id ++ " actualizado exitosamente.") ∧
      dbGet (dbSet db request.flight_id (f.update request)) request.flight_id =
        some (f.update request) ∧
      (∀ id, id ≠ request.flight_id →
        dbGet (dbSet db request.flight_id (f.update request)) id = dbGet db id) ∧
      (f.update request).destination = (match request.destination with
        | some s => if s = "" then f.destination else s
        | none => f.destination) ∧
      (f.update request).departure = (match request.departure with
        | some s => if s = "" then f.departure else s
        | none => f.departure) ∧
      (f.update request).flight_type = (match request.flight_type with
        | some s => if s = "" then f.flight_type else s
        | none => f.flight_type) ∧
      (f.update request).aircraft = (match request.aircraft with
        | some s => if s = "" then f.aircraft else s
        | none => f.aircraft) ∧
      (f.update request).seats = request.seats.getD f.seats ∧
      (f.update request).flight_datetime = request.flight_datetime.getD f.flight_datetime) := by
  constructor
  · intro hnone
    unfold update_flight
    rw [hnone]
  · intro f hf
    refine ⟨?_, ?_, ?_, ?_, ?_, ?_, ?_, ?_, ?_⟩
    · unfold update_flight
      rw [hf]
    · exact assocGet_set_self db request.flight_id _
    · intro id hid
      exact assocGet_set_ne db request.flight_id id _ hid
    · cases hd : request.destination with
      | none => simp [Flight.update, optStrTruthy, hd]
      | some s => by_cases hs : s = "" <;> simp [Flight.update, optStrTruthy, hd, hs]
    · cases hd : request.departure with
      | none => simp [Flight.update, optStrTruthy, hd]
      | some s => by_cases hs : s = "" <;> simp [Flight.update, optStrTruthy, hd, hs]
    · cases hd : request.flight_type with
      | none => simp [Flight.update, optStrTruthy, hd]
      | some s => by_cases hs : s = "" <;> simp [Flight.update, optStrTruthy, hd, hs]
    · cases hd : request.aircraft with
      | none => simp [Flight.update, optStrTruthy, hd]
      | some s => by_cases hs : s = "" <;> simp [Flight.update, optStrTruthy, hd, hs]
    · cases hd : request.seats <;> simp [Flight.update, hd]
    · cases hd : request.flight_datetime <;> simp [Flight.update, hd]

/-- Witness for the amended C2 at a concrete store. -/
theorem update_flight_amended_spec_witness :
    update_flight dbLima reqEmptyDest =
      .ok (dbSet dbLima reqEmptyDest.flight_id (flightLima.update reqEmptyDest),
           "Vuelo " ++ reqEmptyDest.flight_id ++ " actualizado exitosamente.") :=
  ((update_flight_amended_spec dbLima reqEmptyDest).2 flightLima rfl).1

/-- C3 counterexample: with the supplied filter `destination = ""` the
exact-match reading demands an empty result set (hence 404), but the
code ignores the empty-string filter — Python truthiness again — and
returns the flight whose destination is `"Lima"`. -/
theorem search_flights_exact_match_counterexample :
    qEmptyDest.destination = some "" ∧
    search_flights dbLima qEmptyDest = .ok [flightLima] ∧
    (dbLima.map Prod.snd).filter (specMatches qEmptyDest) = [] :=
  ⟨rfl, rfl, rfl⟩

/-- A string clause of the search loop equals the amended spec clause:
an omitted or empty-string filter always passes, a non-empty filter
passes exactly on equality. -/
theorem strClause_eq_amended (filt : Option String) (v : String) :
    strClausePass filt v = specStrClause filt v := by
  cases filt with
  | none => rfl
  | some s =>
      by_cases hs : s = ""
      · simp [strClausePass, specStrClause, optStrTruthy, hs]
      · simp [strClausePass, specStrClause, optStrTruthy, hs, bne]

/-- A non-string clause of the search loop equals the amended spec
clause. -/
theorem optClause_eq_amended {α : Type} [DecidableEq α] (filt : Option α) (v : α) :
    optClausePass filt v = specOptClause filt v := by
  cases filt <;> rfl

/-- C3 amended: `search_flights` returns exactly the stored flights
(in insertion order) that pass every supplied filter, where a supplied
empty-string filter is ignored (treated as omitted) and the remaining
filters test exact equality; it fails with 404 exactly when no flight
passes. -/
theorem search_flights_amended_spec (db : FlightsDb) (q : SearchQuery) :
    (∀ f, flightPassesFilters q f = specMatchesAmended q f) ∧
    (if ((db.map Prod.snd).filter (flightPassesFilters q)).isEmpty then
      search_flights db q = .error ⟨404, "Vuelo no encontrado."⟩
    else
      search_flights db q = .ok ((db.map Prod.snd).filter (flightPassesFilters q))) := by
  constructor
  · intro f
    simp only [flightPassesFilters, specMatchesAmended, strClause_eq_amended,
      optClause_eq_amended]
  · by_cases hres : ((db.map Prod.snd).filter (flightPassesFilters q)).isEmpty = true
    · rw [if_pos hres]
      unfold search_flights
      simp only [hres, if_true]
    · rw [if_neg hres]
      unfold search_flights
      simp only [hres]
      rfl

/-- Every outcome of `get_current_user` is either a resolved user or
the single 401 response. -/
theorem get_current_user_cases (db : UsersDb) (token : Token) (now : Nat) :
    (∃ u, get_current_user db token now = .ok u) ∨
    get_current_user db token now = .error ⟨401, "Invalid authentication credentials"⟩ := by
  unfold get_current_user
  cases jwtDecode token SECRET_KEY now with
  | error e => right; rfl
  | ok payload =>
      cases hsub : payload.sub with
      | none => right; simp [hsub]
      | some username =>
          cases husr : usersGet db username with
          | none => right; simp [hsub, husr]
          | some user => left; exact ⟨user, by simp [hsub, husr]⟩

/-- C4: every failure of `get_current_user` — malformed token, wrong
signing key, expired token, missing subject, or subject not resolving
to a registered principal — surfaces as the single 401 response, and a
user is returned exactly for a token signed with the process key,
unexpired, whose subject resolves in the user table. -/
theorem get_current_user_spec (db : UsersDb) (token : Token) (now : Nat) :
    (∀ e, get_current_user db token now = .error e →
      e = ⟨401, "Invalid authentication credentials"⟩) ∧
    (get_current_user db Token.malformed now =
      .error ⟨401, "Invalid authentication credentials"⟩) ∧
    (∀ k p, k ≠ SECRET_KEY → get_current_user db (Token.signed k p) now =
      .error ⟨401, "Invalid authentication credentials"⟩) ∧
    (∀ p, p.exp < now → get_current_user db (Token.signed SECRET_KEY p) now =
      .error ⟨401, "Invalid authentication credentials"⟩) ∧
    (∀ p, p.sub = none → get_current_user db (Token.signed SECRET_KEY p) now =
      .error ⟨401, "Invalid authentication credentials"⟩) ∧
    (∀ p s, p.sub = some s → usersGet db s = none →
      get_current_user db (Token.signed SECRET_KEY p) now =
        .error ⟨401, "Invalid authentication credentials"⟩) ∧
    (∀ u, get_current_user db token now = .ok u ↔
      ∃ p s, token = Token.signed SECRET_KEY p ∧ now ≤ p.exp ∧ p.sub = some s ∧
        usersGet db s = some u) := by
  refine ⟨?_, ?_, ?_, ?_, ?_, ?_, ?_⟩
  · intro e he
    rcases get_current_user_cases db token now with ⟨u, hu⟩ | herr
    · rw [hu] at he
      exact absurd he (by simp)
    · rw [herr] at he
      exact (Except.error.inj he).symm
  · rfl
  · intro k p hk
    have hbne : (k != SECRET_KEY) = true := by simpa using hk
    simp [get_current_user, jwtDecode, hbne]
  · intro p hexp
    simp [get_current_user, jwtDecode, hexp]
  · intro p hsub
    unfold get_current_user jwtDecode
    simp only [bne_self_eq_false]
    by_cases hexp : p.exp < now
    · simp [hexp]
    · simp [hexp, hsub]
  · intro p s hsub husr
    unfold get_current_user jwtDecode
    simp only [bne_self_eq_false]
    by_cases hexp : p.exp < now
    · simp [hexp]
    · simp [hexp, hsub, husr]
  · intro u
    constructor
    · intro hok
      cases token with
      | malformed => simp [get_current_user, jwtDecode] at hok
      | signed k p =>
          by_cases hk : k = SECRET_KEY
          · subst hk
            by_cases hexp : p.exp < now
            · simp [get_current_user, jwtDecode, hexp] at hok
            · cases hsub : p.sub with
              | none => simp [get_current_user, jwtDecode, hexp, hsub] at hok
              | some s =>
                  cases husr : usersGet db s with
                  | none => simp [get_current_user, jwtDecode, hexp, hsub, husr] at hok
                  | some u' =>
                      have hu' : u' = u := by
                        simpa [get_current_user, jwtDecode, hexp, hsub, husr] using hok
                      exact ⟨p, s, rfl, Nat.not_lt.mp hexp, hsub, by rw [husr, hu']⟩
          · have hbne : (k != SECRET_KEY) = true := by simpa using hk
            simp [get_current_user, jwtDecode, hbne] at hok
    · rintro ⟨p, s, rfl, hnow, hsub, husr⟩
      unfold get_current_user jwtDecode
      simp [bne_self_eq_false, Nat.not_lt.mpr hnow, hsub, husr]

/-- Witness for C4: the admin's well-signed unexpired token resolves to
the registered admin principal. -/
theorem get_current_user_spec_witness :
    get_current_user fake_users_db tokenAdmin 0 =
      .ok ⟨"admin@example.com", "bcrypt-hash-of-admin", true⟩ :=
  ((get_current_user_spec fake_users_db tokenAdmin 0).2.2.2.2.2.2 _).mpr
    ⟨⟨some "admin@example.com", 100⟩, "admin@example.com", rfl, by decide, rfl, rfl⟩

/-- C5: `admin_required` propagates authentication failures unchanged,
fails with 403 exactly when the authenticated principal's `is_admin`
flag is false, returns the principal when the flag is true, and never
returns a principal whose flag is false. -/
theorem admin_required_spec (db : UsersDb) (token : Token) (now : Nat) :
    (∀ e, get_current_user db token now = .error e →
      admin_required db token now = .error e) ∧
    (∀ u, get_current_user db token now = .ok u → u.is_admin = false →
      admin_required db token now =
        .error ⟨403, "The user doesn\x27t have enough privileges"⟩) ∧
    (∀ u, get_current_user db token now = .ok u → u.is_admin = true →
      admin_required db token now = .ok u) ∧
    (∀ u, admin_required db token now = .ok u → u.is_admin = true) := by
  refine ⟨?_, ?_, ?_, ?_⟩
  · intro e he
    unfold admin_required
    rw [he]
  · intro u hu ha
    unfold admin_required
    rw [hu]
    simp [ha]
  · intro u hu ha
    unfold admin_required
    rw [hu]
    simp [ha]
  · intro u hu
    unfold admin_required at hu
    cases hg : get_current_user db token now with
    | error e => rw [hg] at hu; simp at hu
    | ok u' =>
        rw [hg] at hu
        by_cases ha : u'.is_admin = true
        · simp only [ha, Bool.not_true, Bool.false_eq_true, if_false, Except.ok.injEq] at hu
          rw [← hu]
          exact ha
        · have : u'.is_admin = false := by
            cases hb : u'.is_admin
            · rfl
            · exact absurd hb ha
          simp [this] at hu

/-- Witness for C5: the admin token passes the admin gate. -/
theorem admin_required_spec_witness :
    admin_required fake_users_db tokenAdmin 0 =
      .ok ⟨"admin@example.com", "bcrypt-hash-of-admin", true⟩ :=
  (admin_required_spec fake_users_db tokenAdmin 0).2.2.1
    ⟨"admin@example.com", "bcrypt-hash-of-admin", true⟩ rfl rfl

/-- C8 counterexample: the create endpoint parses a full `Reservation`
from the client, including `status`, and stores it verbatim — a
reservation created with `status = "confirmed"` is accepted, so neither
"initial status is reserved" nor the two-value range holds for
client-supplied statuses. -/
theorem reservation_status_claim_counterexample :
    add_reservation [] resConfirmed = .ok [(1, resConfirmed)] ∧
    resGet [((1 : Int), resConfirmed)] 1 = some resConfirmed ∧
    resConfirmed.status ≠ "reserved" ∧ resConfirmed.status ≠ "cancelled" := by
  refine ⟨rfl, rfl, ?_, ?_⟩ <;> decide

/-- C8 amended: a reservation parsed from a payload that omits `status`
gets the schema default `"reserved"`; `add_reservation` stores the
client-supplied record verbatim (so the stored status is whatever
string the payload carried, not restricted to a two-value enum), and it
accepts the record whenever the id is fresh. -/
theorem reservation_status_amended_spec (db : ReservationsDb) (r : Reservation) :
    (Reservation.mkDefault r.id r.passenger_email r.flight_id r.seat_number).status =
      "reserved" ∧
    (∀ db2, add_reservation db r = .ok db2 → resGet db2 r.id = some r) ∧
    ((resGet db r.id).isSome = false → add_reservation db r = .ok (assocSet db r.id r)) := by
  refine ⟨rfl, ?_, ?_⟩
  · intro db2 hok
    unfold add_reservation at hok
    by_cases h : (resGet db r.id).isSome
    · rw [if_pos h] at hok
      simp at hok
    · rw [if_neg h] at hok
      have hdb : db2 = assocSet db r.id r := (Except.ok.inj hok).symm
      rw [hdb]
      exact assocGet_set_self db r.id r
  · intro h
    unfold add_reservation
    rw [if_neg (by simp [h])]

/-- Witness for the amended C8: storing a default-status reservation in
the empty store keeps it retrievable unchanged. -/
theorem reservation_status_amended_spec_witness :
    resGet (assocSet ([] : ReservationsDb) (Reservation.mkDefault 1 "a@b.com" "F1" none).id
        (Reservation.mkDefault 1 "a@b.com" "F1" none))
      (Reservation.mkDefault 1 "a@b.com" "F1" none).id =
      some (Reservation.mkDefault 1 "a@b.com" "F1" none) :=
  (reservation_status_amended_spec [] (Reservation.mkDefault 1 "a@b.com" "F1" none)).2.1
    _ ((reservation_status_amended_spec [] (Reservation.mkDefault 1 "a@b.com" "F1" none)).2.2 rfl)

/-- C9: `cancel_reservation` fails with 404 (and no store is produced)
when the id is absent; otherwise it replaces the stored record by the
same record with `status = "cancelled"` — all other fields unchanged —
persisted via `update_reservation`, visible to a subsequent `list_all`,
with every other reservation untouched. -/
theorem cancel_reservation_spec (db : ReservationsDb) (i : Int) (hwf : resDbWF db) :
    (resGet db i = none →
      cancel_reservation db i = .error ⟨404, "Reservación no encontrada."⟩) ∧
    (∀ r, resGet db i = some r →
      cancel_reservation db i = .ok (assocSet db i { r with status := "cancelled" }) ∧
      resGet (assocSet db i { r with status := "cancelled" }) i =
        some { r with status := "cancelled" } ∧
      (∀ j, j ≠ i → resGet (assocSet db i { r with status := "cancelled" }) j = resGet db j) ∧
      { r with status := "cancelled" } ∈ list_all (assocSet db i { r with status := "cancelled" })) := by
  constructor
  · intro hnone
    unfold cancel_reservation
    rw [hnone]
  · intro r hr
    have hid : r.id = i := assocGet_snd_key Reservation.id hwf.2 hr
    refine ⟨?_, ?_, ?_, ?_⟩
    · have hsome : (resGet db ({ r with status := "cancelled" } : Reservation).id).isSome = true := by
        show (resGet db r.id).isSome = true
        rw [hid, hr]
        rfl
      have hid' : ({ r with status := "cancelled" } : Reservation).id = i := hid
      unfold cancel_reservation
      rw [hr]
      simp only [update_reservation, hsome, if_true, hid']
      rw [hid]
    · exact assocGet_set_self db i _
    · intro j hj
      exact assocGet_set_ne db i j _ hj
    · exact assocGet_mem_values (assocGet_set_self db i _)

/-- Witness for C9 at a concrete store: cancelling the stored
reservation replaces it with the cancelled copy. -/
theorem cancel_reservation_spec_witness :
    cancel_reservation dbRes1 1 =
      .ok (assocSet dbRes1 1
        { Reservation.mkDefault 1 "a@b.com" "F1" none with status := "cancelled" }) :=
  ((cancel_reservation_spec dbRes1 1 ⟨by decide, by decide⟩).2
    (Reservation.mkDefault 1 "a@b.com" "F1" none) rfl).1

end Esp
